import Mathlib

/-!
Verification of the bearer-token authentication core of `mingle-core`
(`app/auth_utils.py`), shallowly embedded in Lean 4.

The embedding models:
- `get_token_auth_header` (header extraction, `auth_utils.py` lines 64-97),
- the token-validation body of the `requires_auth_token` decorator
  (lines 104-152), with the external jose library's `jwt.get_unverified_header`
  and `jwt.decode` treated as oracles threaded through an `Env` record,
- `requires_scope` (lines 157-170), with `jwt.get_unverified_claims` as an
  oracle.

Python exceptions are modelled with an explicit error type `PyErr`:
`AuthError` raises become `PyErr.authError`, while the exceptions that escape
the code uncaught (the `IndexError` from `parts[0]` on a whitespace-only
header, the `KeyError` from `unverified_header["kid"]`, and jose errors raised
outside any `try` block) are distinct constructors, so that "the rejection is
an AuthError" is a provable or refutable statement.
-/

deriving instance DecidableEq for Except

namespace MingleCore

/-- Error model for the Python code. `authError code description status`
models `raise AuthError({"code": ..., "description": ...}, status)`; the
other constructors model exceptions that the source does not catch. -/
inductive PyErr where
  | authError (code : String) (description : String) (status : Nat)
  | indexError
  | keyError
  | jwtError
deriving DecidableEq

/-- The subset of a JWK kept by the key-matching loop in
`requires_auth_token` (`{"kty", "kid", "use", "n", "e"}`). -/
structure JwksKey where
  kty : String
  kid : String
  use : String
  n : String
  e : String
deriving DecidableEq

/-- Result of `jwt.get_unverified_header`: the decoded, unverified token
header. `kid := none` models a header without a `"kid"` entry, so that
`unverified_header["kid"]` raising `KeyError` is representable. -/
structure UnverifiedHeader where
  kid : Option String
  alg : String
deriving DecidableEq

/-- The token claims the pipeline inspects: audience, issuer, expiry and the
space-separated scope string. Absent claims are `none`. -/
structure Claims where
  aud : Option String
  iss : Option String
  exp : Option Int
  scope : Option String
deriving DecidableEq

/-- The exact argument tuple the code passes to `jwt.decode(token, rsa_key,
algorithms=..., audience=..., issuer=...)`. -/
structure DecodeArgs where
  token : String
  key : JwksKey
  algorithms : List String
  audience : String
  issuer : String
deriving DecidableEq

/-- Outcome of a `jwt.decode` call as discriminated by the `try/except`
chain in `requires_auth_token`: success, `jwt.ExpiredSignatureError`,
`jwt.JWTClaimsError`, or any other exception (the bare `except Exception`,
covering signature failures, malformed tokens and header-decode failures
inside `jwt.decode`). -/
inductive DecodeResult where
  | ok (payload : Claims)
  | expiredSignature
  | claimsError
  | otherError
deriving DecidableEq

/-- `ALGORITHMS = ["RS256"]` (`auth_utils.py` line 16). -/
def ALGORITHMS : List String := ["RS256"]

/-- Splits a list of characters on runs of whitespace, dropping empty
pieces: the semantics of Python's `str.split()` with no argument.
First argument: remaining input; second: the current chunk, reversed. -/
def pySplitAux : List Char → List Char → List String
  | [], acc => if acc.isEmpty then [] else [String.mk acc.reverse]
  | c :: cs, acc =>
    if c.isWhitespace then
      if acc.isEmpty then pySplitAux cs []
      else String.mk acc.reverse :: pySplitAux cs []
    else pySplitAux cs (c :: acc)

/-- Python's `s.split()`: split on whitespace runs, no empty parts. -/
def pySplit (s : String) : List String := pySplitAux s.data []

/-- Python's `s.lower()` (restricted to the ASCII case mapping, which is all
the comparison against `"bearer"` exercises). -/
def pyLower (s : String) : String := String.mk (s.data.map Char.toLower)

/-- `get_token_auth_header` (`auth_utils.py` lines 64-97). The argument is
`request.headers.get("Authorization", None)`; `none` is an absent header.
Python's `if not auth` is true for both `None` and the empty string.
`parts[0]` on an empty list and `parts[1]` on a short list raise
`IndexError`. -/
def get_token_auth_header (auth : Option String) : Except PyErr String :=
  match auth with
  | none =>
      .error (.authError "authorization_header_missing"
        "Authorization header is expected" 401)
  | some a =>
      if a = "" then
        .error (.authError "authorization_header_missing"
          "Authorization header is expected" 401)
      else
        let parts := pySplit a
        match parts[0]? with
        | none => .error .indexError
        | some p0 =>
          if pyLower p0 ≠ "bearer" then
            .error (.authError "invalid_header"
              "Authorization header must start with Bearer" 401)
          else if parts.length = 1 then
            .error (.authError "invalid_header" "Token not found" 401)
          else if parts.length > 2 then
            .error (.authError "invalid_header"
              "Authorization header must be Bearer token" 401)
          else
            match parts[1]? with
            | none => .error .indexError
            | some t => .ok t

/-- The environment of the `requires_auth_token` decorator: the parsed JWKS
fetched from `https://AUTH0_DOMAIN/.well-known/jwks.json` (`jwks["keys"]`),
the external jose operations `jwt.get_unverified_header` and `jwt.decode`
as oracles, and the configuration values `API_AUDIENCE` and `AUTH0_DOMAIN`
imported from `app.serve`. -/
structure Env where
  jwks : List JwksKey
  headerOf : String → Except PyErr UnverifiedHeader
  decode : DecodeArgs → DecodeResult
  apiAudience : String
  auth0Domain : String

/-- The key-matching loop of `requires_auth_token` (lines 109-118):
`rsa_key` starts empty and is overwritten by every key whose `kid` matches,
so the last match wins; `none` models the empty dict. -/
def findKey (keys : List JwksKey) (kid : String) : Option JwksKey :=
  keys.foldl (fun acc k => if k.kid = kid then some k else acc) none

/-- The exact arguments `requires_auth_token` passes to `jwt.decode`
(lines 121-126): the token, the matched key, `algorithms=ALGORITHMS`,
`audience=API_AUDIENCE`, `issuer=AUTH0_DOMAIN + "/"`. -/
def mkDecodeArgs (env : Env) (token : String) (key : JwksKey) : DecodeArgs :=
  { token := token, key := key, algorithms := ALGORITHMS,
    audience := env.apiAudience, issuer := env.auth0Domain ++ "/" }

/-- The front of the `requires_auth_token` pipeline, up to and including key
matching (lines 105-118 and the `raise` on lines 149-152): header
extraction, `jwt.get_unverified_header(token)` (uncaught on failure),
`unverified_header["kid"]` (KeyError when absent), and the key scan.
An empty `rsa_key` yields the "Unable to find appropriate key" AuthError. -/
def keyLookup (env : Env) (auth : Option String) :
    Except PyErr (String × JwksKey) :=
  match get_token_auth_header auth with
  | .error err => .error err
  | .ok token =>
    match env.headerOf token with
    | .error err => .error err
    | .ok hdr =>
      match hdr.kid with
      | none => .error .keyError
      | some kid =>
        match findKey env.jwks kid with
        | none =>
            .error (.authError "invalid_header"
              "Unable to find appropriate key" 401)
        | some key => .ok (token, key)

/-- The full token-validation body of `requires_auth_token` (lines 105-152):
key lookup, then `jwt.decode` inside the `try`, with the three `except`
clauses mapping `ExpiredSignatureError`, `JWTClaimsError` and any other
exception to their AuthErrors. Note the `invalid_claims` description is the
Python adjacent-string concatenation `"incorrect claims," "please check the
audience and issuer"`, which has no space after the comma. -/
def validate (env : Env) (auth : Option String) : Except PyErr Claims :=
  match keyLookup env auth with
  | .error err => .error err
  | .ok (token, key) =>
    match env.decode (mkDecodeArgs env token key) with
    | .ok payload => .ok payload
    | .expiredSignature =>
        .error (.authError "token_expired" "token is expired" 401)
    | .claimsError =>
        .error (.authError "invalid_claims"
          "incorrect claims,please check the audience and issuer" 401)
    | .otherError =>
        .error (.authError "invalid_header"
          "Unable to parse authentication token." 401)

/-- The argument record that `validate` passes to `jwt.decode`, or `none`
when control never reaches the `jwt.decode` call. Mirrors `validate` up to
the decode call. -/
def decodeArgsOf (env : Env) (auth : Option String) : Option DecodeArgs :=
  match keyLookup env auth with
  | .error _ => none
  | .ok (token, key) => some (mkDecodeArgs env token key)

/-- Replaces the `alg` field that `jwt.get_unverified_header` reports by an
arbitrary function of itself, leaving everything else in the environment
unchanged. Used to state that the token header's algorithm never influences
the pipeline. -/
def setAlg (f : String → String) (env : Env) : Env :=
  { env with
    headerOf := fun t =>
      (env.headerOf t).map (fun h => { h with alg := f h.alg }) }

/-- `true` iff the expiry claim is strictly in the past. -/
def expPast (exp : Option Int) (now : Int) : Bool :=
  match exp with
  | some e => if e < now then true else false
  | none => false

/-- A token as seen by `jwt.decode`: whether its compact serialization
(header included) parses, the algorithm named in its header, whether its
signature verifies under the matched key, and its payload claims. -/
structure TokenModel where
  parseOk : Bool
  alg : String
  sigOk : Bool
  claims : Claims
deriving DecidableEq

/-- Modelled from the spec: the external jose library's `jwt.decode`, which
is not part of this repository. Per spec section 4.3: a parse failure or a
signature that does not verify under the allow-listed algorithm is a generic
failure (the bare `except Exception` case); an expiry strictly in the past
raises `ExpiredSignatureError`; an audience or issuer mismatch raises
`JWTClaimsError`; otherwise the payload claims are returned unchanged.
Signature checking precedes claim validation, and the expiry check precedes
the audience/issuer checks, as in the jose claim-validation order the spec
describes (step 3 before step 4; "Expired" listed before claim mismatch). -/
def joseDecode (now : Int) (tm : TokenModel) (args : DecodeArgs) :
    DecodeResult :=
  if tm.parseOk = false then .otherError
  else if ¬ (tm.alg ∈ args.algorithms ∧ tm.sigOk = true) then .otherError
  else if expPast tm.claims.exp now = true then .expiredSignature
  else if tm.claims.aud ≠ some args.audience
      ∨ tm.claims.iss ≠ some args.issuer then .claimsError
  else .ok tm.claims

/-- An `Env` whose `jwt.decode` oracle is the jose model `joseDecode`,
reading the token's `TokenModel` off the token string through `tmOf`. -/
def joseEnv (jwks : List JwksKey)
    (headerOf : String → Except PyErr UnverifiedHeader)
    (tmOf : String → TokenModel) (now : Int)
    (audience domain : String) : Env :=
  { jwks := jwks, headerOf := headerOf,
    decode := fun args => joseDecode now (tmOf args.token) args,
    apiAudience := audience, auth0Domain := domain }

/-- `requires_scope` (`auth_utils.py` lines 157-170). `claimsOf` is the
external `jwt.get_unverified_claims` (raises on an unparseable token).
Python's `if unverified_claims.get("scope"):` is false for an absent scope
claim and for the empty string; otherwise the claim is split on whitespace
and scanned for `required_scope`, returning `True` on the first match and
`False` after the loop. -/
def requires_scope (claimsOf : String → Except PyErr Claims)
    (auth : Option String) (required_scope : String) : Except PyErr Bool :=
  match get_token_auth_header auth with
  | .error err => .error err
  | .ok token =>
    match claimsOf token with
    | .error err => .error err
    | .ok claims =>
      match claims.scope with
      | none => .ok false
      | some s =>
        if s = "" then .ok false
        else .ok ((pySplit s).contains required_scope)

/-! Concrete fixtures used by witnesses and counterexamples. -/

/-- A sample signing key with `kid = "k1"`. -/
def wKey : JwksKey :=
  { kty := "RSA", kid := "k1", use := "sig", n := "nn", e := "ee" }

/-- A `jwt.get_unverified_header` oracle reporting `kid = "k1"` and an
`alg` the pipeline must ignore. -/
def wHeaderOf : String → Except PyErr UnverifiedHeader :=
  fun _ => .ok { kid := some "k1", alg := "HS256" }

/-- Sample environment whose key set contains `wKey`. -/
def wEnv : Env :=
  { jwks := [wKey], headerOf := wHeaderOf, decode := fun _ => .otherError,
    apiAudience := "aud", auth0Domain := "dom" }

/-- The decode arguments produced by `wEnv` for token `"tok"`. -/
def wArgs : DecodeArgs :=
  { token := "tok", key := wKey, algorithms := ["RS256"],
    audience := "aud", issuer := "dom/" }

/-- Sample environment whose key set is empty, so no `kid` can match. -/
def nkEnv : Env :=
  { jwks := [], headerOf := wHeaderOf, decode := fun _ => .otherError,
    apiAudience := "aud", auth0Domain := "dom" }

/-- A well-formed, well-signed token whose audience claim is wrong. -/
def cTm : TokenModel :=
  { parseOk := true, alg := "RS256", sigOk := true,
    claims := { aud := some "wrong", iss := some "dom/", exp := none,
                scope := none } }

/-- A well-formed, well-signed token with correct claims except for an
expiry strictly in the past. -/
def eTm : TokenModel :=
  { parseOk := true, alg := "RS256", sigOk := true,
    claims := { aud := some "aud", iss := some "dom/", exp := some (-5),
                scope := none } }

/-- A token whose compact serialization (header included) does not parse. -/
def pTm : TokenModel :=
  { parseOk := false, alg := "RS256", sigOk := true,
    claims := { aud := some "aud", iss := some "dom/", exp := none,
                scope := none } }

/-- Environment presenting `cTm` (audience mismatch) for every token. -/
def cEnv : Env := joseEnv [wKey] wHeaderOf (fun _ => cTm) 0 "aud" "dom"

/-- Environment presenting `eTm` (expired) for every token, at `now = 0`. -/
def eEnv : Env := joseEnv [wKey] wHeaderOf (fun _ => eTm) 0 "aud" "dom"

/-- Environment presenting `pTm` (unparseable) for every token. -/
def pEnv : Env := joseEnv [wKey] wHeaderOf (fun _ => pTm) 0 "aud" "dom"

/-- Sample unverified claims with scope string `"read write"`. -/
def anyClaims : Claims :=
  { aud := none, iss := none, exp := none, scope := some "read write" }

/-! Theorems. -/

/-- C10: a present but empty Authorization header fails with the
`authorization_header_missing` AuthError (HTTP 401), exactly as when the
header is absent, rather than with a scheme or part-count error. -/
theorem empty_header_missing :
    get_token_auth_header (some "") =
      Except.error (PyErr.authError "authorization_header_missing"
        "Authorization header is expected" 401) ∧
    get_token_auth_header (some "") = get_token_auth_header none :=
  ⟨by decide, by decide⟩

/-- C2: evaluation at the failing input. A whitespace-only Authorization
header (a single space) is present and non-empty, splits into zero parts,
and `parts[0]` raises an uncaught `IndexError`: the rejection escapes the
pipeline as an exception that is not an AuthError, for any environment. -/
theorem whitespace_header_index_error (env : Env) :
    get_token_auth_header (some " ") = Except.error PyErr.indexError ∧
    validate env (some " ") = Except.error PyErr.indexError := by
  have h : get_token_auth_header (some " ") = Except.error PyErr.indexError := by
    decide
  refine ⟨h, ?_⟩
  simp [validate, keyLookup, h]

/-- C3: for every Authorization header of exactly two whitespace-separated
parts whose first part is case-insensitively `"bearer"`, extraction succeeds
and returns exactly the second part. -/
theorem bearer_two_parts_ok (s t1 t2 : String)
    (h : pySplit s = [t1, t2]) (hb : pyLower t1 = "bearer") :
    get_token_auth_header (some s) = Except.ok t2 := by
  have hs : ¬ (s = "") := by
    intro hs0
    rw [hs0] at h
    simp [pySplit, pySplitAux] at h
  unfold get_token_auth_header
  simp [hs, h, hb]

/-- Witness for C3 at the header `"Bearer abc.def.ghi"`. -/
theorem bearer_two_parts_ok_witness :
    get_token_auth_header (some "Bearer abc.def.ghi") =
      Except.ok "abc.def.ghi" :=
  bearer_two_parts_ok "Bearer abc.def.ghi" "Bearer" "abc.def.ghi"
    (by decide) (by decide)

/-- C4: for every present Authorization header with at least one
whitespace-separated part, the three extraction failures carry code
`invalid_header` and HTTP 401, the scheme check precedes the part-count
checks (a non-bearer first part yields the scheme error whatever the part
count), a single bearer part yields "Token not found", and more than two
parts with a bearer scheme yield "Authorization header must be Bearer
token". -/
theorem header_error_cases (s p0 : String) (rest : List String)
    (h : pySplit s = p0 :: rest) :
    (pyLower p0 ≠ "bearer" →
      get_token_auth_header (some s) =
        Except.error (PyErr.authError "invalid_header"
          "Authorization header must start with Bearer" 401)) ∧
    (pyLower p0 = "bearer" → rest = [] →
      get_token_auth_header (some s) =
        Except.error (PyErr.authError "invalid_header" "Token not found" 401)) ∧
    (pyLower p0 = "bearer" → 2 ≤ rest.length →
      get_token_auth_header (some s) =
        Except.error (PyErr.authError "invalid_header"
          "Authorization header must be Bearer token" 401)) := by
  have hs : ¬ (s = "") := by
    intro hs0
    rw [hs0] at h
    simp [pySplit, pySplitAux] at h
  refine ⟨?_, ?_, ?_⟩
  · intro hb
    unfold get_token_auth_header
    simp [hs, h, hb]
  · intro hb hr
    subst hr
    unfold get_token_auth_header
    simp [hs, h, hb]
  · intro hb hr
    unfold get_token_auth_header
    simp [hs, h, hb]
    have h1 : ¬ (rest = []) := by
      intro h0
      subst h0
      simp at hr
    have h2 : 2 < rest.length + 1 := by omega
    simp [h1, h2]

/-- Witness for C4 at the header `"Basic xyz"` (wrong scheme). -/
theorem header_error_cases_witness :
    get_token_auth_header (some "Basic xyz") =
      Except.error (PyErr.authError "invalid_header"
        "Authorization header must start with Bearer" 401) :=
  (header_error_cases "Basic xyz" "Basic" ["xyz"] (by decide)).1 (by decide)

/-- `keyLookup` never looks at the `alg` field of the unverified header. -/
theorem keyLookup_setAlg (f : String → String) (env : Env)
    (auth : Option String) :
    keyLookup (setAlg f env) auth = keyLookup env auth := by
  unfold keyLookup setAlg
  cases get_token_auth_header auth with
  | error e => rfl
  | ok token =>
    simp only
    cases hh : env.headerOf token with
    | error e => simp [Except.map, hh]
    | ok hdr => simp [Except.map, hh]

/-- C1: whenever the pipeline reaches signature verification, the
`algorithms` argument handed to `jwt.decode` is the fixed one-element
allow-list `ALGORITHMS = ["RS256"]`, for every environment (hence for every
algorithm the token's own header may name); and rewriting the header's
`alg` field arbitrarily changes nothing about the decode call. -/
theorem decode_algorithms_fixed (env : Env) (auth : Option String)
    (args : DecodeArgs) (f : String → String) :
    (decodeArgsOf env auth = some args →
      args.algorithms = ALGORITHMS ∧ ALGORITHMS = ["RS256"]) ∧
    decodeArgsOf (setAlg f env) auth = decodeArgsOf env auth := by
  constructor
  · intro h
    unfold decodeArgsOf at h
    cases hk : keyLookup env auth with
    | error e => rw [hk] at h; simp at h
    | ok tk =>
      rw [hk] at h
      simp at h
      rw [← h]
      exact ⟨rfl, rfl⟩
  · unfold decodeArgsOf
    rw [keyLookup_setAlg]
    cases keyLookup env auth with
    | error e => rfl
    | ok tk => simp [mkDecodeArgs, setAlg]

/-- Witness for C1: in the sample environment (whose header oracle reports
`alg = "HS256"`), the arguments reaching `jwt.decode` still carry
`["RS256"]`. -/
theorem decode_algorithms_fixed_witness :
    wArgs.algorithms = ALGORITHMS ∧ ALGORITHMS = ["RS256"] :=
  (decode_algorithms_fixed wEnv (some "Bearer tok") wArgs id).1 (by decide)

/-- C5: when the unverified header's `kid` matches no key of the fetched
key set, validation fails with the `invalid_header` AuthError "Unable to
find appropriate key" (HTTP 401) and `jwt.decode` is never invoked. -/
theorem no_matching_key (env : Env) (auth : Option String) (token : String)
    (hdr : UnverifiedHeader) (kid : String)
    (ht : get_token_auth_header auth = Except.ok token)
    (hh : env.headerOf token = Except.ok hdr)
    (hkid : hdr.kid = some kid)
    (hf : findKey env.jwks kid = none) :
    validate env auth =
      Except.error (PyErr.authError "invalid_header"
        "Unable to find appropriate key" 401) ∧
    decodeArgsOf env auth = none := by
  have hkl : keyLookup env auth =
      Except.error (PyErr.authError "invalid_header"
        "Unable to find appropriate key" 401) := by
    unfold keyLookup
    rw [ht]
    simp only
    rw [hh]
    simp only
    rw [hkid]
    simp only
    rw [hf]
  constructor
  · unfold validate
    rw [hkl]
  · unfold decodeArgsOf
    rw [hkl]

/-- Witness for C5: an environment with an empty key set rejects a
well-formed bearer token without ever calling `jwt.decode`. -/
theorem no_matching_key_witness :
    validate nkEnv (some "Bearer tok") =
      Except.error (PyErr.authError "invalid_header"
        "Unable to find appropriate key" 401) ∧
    decodeArgsOf nkEnv (some "Bearer tok") = none :=
  no_matching_key nkEnv (some "Bearer tok") "tok"
    { kid := some "k1", alg := "HS256" } "k1" (by decide) rfl rfl rfl

/-- C6 (amended): a token that reaches `jwt.decode` with a matched key,
parses, verifies under the RS256 allow-list, and is not expired, but whose
audience does not match the configured audience or whose issuer does not
equal the configured domain followed by `"/"`, is rejected with the
`invalid_claims` AuthError (HTTP 401) whose description is the
concatenation without a space: "incorrect claims,please check the audience
and issuer". -/
theorem claims_mismatch_invalid_claims (jwks : List JwksKey)
    (headerOf : String → Except PyErr UnverifiedHeader)
    (tmOf : String → TokenModel) (now : Int) (audience domain : String)
    (auth : Option String) (token : String) (key : JwksKey)
    (hk : keyLookup (joseEnv jwks headerOf tmOf now audience domain) auth =
      Except.ok (token, key))
    (hp : (tmOf token).parseOk = true)
    (ha : (tmOf token).alg ∈ ALGORITHMS)
    (hsig : (tmOf token).sigOk = true)
    (he : expPast (tmOf token).claims.exp now = false)
    (hm : (tmOf token).claims.aud ≠ some audience ∨
      (tmOf token).claims.iss ≠ some (domain ++ "/")) :
    validate (joseEnv jwks headerOf tmOf now audience domain) auth =
      Except.error (PyErr.authError "invalid_claims"
        "incorrect claims,please check the audience and issuer" 401) := by
  have hd : (joseEnv jwks headerOf tmOf now audience domain).decode
      (mkDecodeArgs (joseEnv jwks headerOf tmOf now audience domain)
        token key) = DecodeResult.claimsError := by
    have ha2 : (tmOf token).alg = "RS256" := by
      simpa [ALGORITHMS] using ha
    simp only [joseEnv, mkDecodeArgs, joseDecode, ALGORITHMS] at *
    simp [hp, ha2, hsig, he, hm]
  unfold validate
  rw [hk]
  simp only
  rw [hd]

/-- Witness for C6 at a concrete environment whose token has the wrong
audience. -/
theorem claims_mismatch_invalid_claims_witness :
    validate cEnv (some "Bearer tok") =
      Except.error (PyErr.authError "invalid_claims"
        "incorrect claims,please check the audience and issuer" 401) :=
  claims_mismatch_invalid_claims [wKey] wHeaderOf (fun _ => cTm) 0
    "aud" "dom" (some "Bearer tok") "tok" wKey (by decide) rfl (by decide)
    rfl rfl (Or.inl (by decide))

/-- Counterexample for C6 as stated: at a concrete audience-mismatched
token the produced description is the no-space concatenation, which is not
the claimed "incorrect claims, please check the audience and issuer". -/
theorem claims_error_description_counterexample :
    validate cEnv (some "Bearer tok") =
      Except.error (PyErr.authError "invalid_claims"
        "incorrect claims,please check the audience and issuer" 401) ∧
    "incorrect claims,please check the audience and issuer" ≠
      "incorrect claims, please check the audience and issuer" :=
  ⟨by decide, by decide⟩

/-- C7: a token that reaches `jwt.decode` with a matched key, parses and
verifies under the RS256 allow-list, but whose expiry claim is strictly in
the past, is rejected with the `token_expired` AuthError (HTTP 401,
"token is expired"). -/
theorem expired_token_expired (jwks : List JwksKey)
    (headerOf : String → Except PyErr UnverifiedHeader)
    (tmOf : String → TokenModel) (now : Int) (audience domain : String)
    (auth : Option String) (token : String) (key : JwksKey)
    (hk : keyLookup (joseEnv jwks headerOf tmOf now audience domain) auth =
      Except.ok (token, key))
    (hp : (tmOf token).parseOk = true)
    (ha : (tmOf token).alg ∈ ALGORITHMS)
    (hsig : (tmOf token).sigOk = true)
    (he : expPast (tmOf token).claims.exp now = true) :
    validate (joseEnv jwks headerOf tmOf now audience domain) auth =
      Except.error (PyErr.authError "token_expired" "token is expired" 401) := by
  have hd : (joseEnv jwks headerOf tmOf now audience domain).decode
      (mkDecodeArgs (joseEnv jwks headerOf tmOf now audience domain)
        token key) = DecodeResult.expiredSignature := by
    have ha2 : (tmOf token).alg = "RS256" := by
      simpa [ALGORITHMS] using ha
    simp only [joseEnv, mkDecodeArgs, joseDecode, ALGORITHMS] at *
    simp [hp, ha2, hsig, he]
  unfold validate
  rw [hk]
  simp only
  rw [hd]

/-- Witness for C7 at a concrete token with `exp = -5` and `now = 0`. -/
theorem expired_token_expired_witness :
    validate eEnv (some "Bearer tok") =
      Except.error (PyErr.authError "token_expired" "token is expired" 401) :=
  expired_token_expired [wKey] wHeaderOf (fun _ => eTm) 0 "aud" "dom"
    (some "Bearer tok") "tok" wKey (by decide) rfl (by decide) rfl rfl

/-- C8: a token that reaches `jwt.decode` with a matched key and fails in
any way other than `ExpiredSignatureError` or `JWTClaimsError` — the bare
`except Exception` case, covering unparseable tokens and header-decode
failures inside `jwt.decode` — is rejected with the `invalid_header`
AuthError (HTTP 401, "Unable to parse authentication token."). -/
theorem other_decode_failure_invalid_header (env : Env)
    (auth : Option String) (token : String) (key : JwksKey)
    (hk : keyLookup env auth = Except.ok (token, key))
    (hd : env.decode (mkDecodeArgs env token key) = DecodeResult.otherError) :
    validate env auth =
      Except.error (PyErr.authError "invalid_header"
        "Unable to parse authentication token." 401) := by
  unfold validate
  rw [hk]
  simp only
  rw [hd]

/-- Witness for C8: a token whose compact serialization (header included)
does not parse inside `jwt.decode` yields the parse-failure AuthError. -/
theorem other_decode_failure_invalid_header_witness :
    validate pEnv (some "Bearer tok") =
      Except.error (PyErr.authError "invalid_header"
        "Unable to parse authentication token." 401) :=
  other_decode_failure_invalid_header pEnv (some "Bearer tok") "tok" wKey
    (by decide) (by decide)

/-- C9 (amended): when header extraction succeeds and the token's claims
decode, `requires_scope` returns true iff the required scope appears among
the whitespace-separated tokens of the `scope` claim (an absent claim reads
as the empty string), and in particular returns false when the claim is
absent; extraction and claims-decoding failures propagate as exceptions. -/
theorem requires_scope_spec (claimsOf : String → Except PyErr Claims)
    (auth : Option String) (rs token : String) (claims : Claims)
    (ht : get_token_auth_header auth = Except.ok token)
    (hc : claimsOf token = Except.ok claims) :
    requires_scope claimsOf auth rs =
      Except.ok ((pySplit (claims.scope.getD "")).contains rs) ∧
    (claims.scope = none →
      requires_scope claimsOf auth rs = Except.ok false) := by
  have main : requires_scope claimsOf auth rs =
      Except.ok ((pySplit (claims.scope.getD "")).contains rs) := by
    unfold requires_scope
    rw [ht]
    simp only
    rw [hc]
    simp only
    cases hsc : claims.scope with
    | none => simp [pySplit, pySplitAux]
    | some s =>
      by_cases hse : s = ""
      · subst hse
        simp [pySplit, pySplitAux]
      · simp [hse]
  refine ⟨main, fun hn => ?_⟩
  rw [main, hn]
  simp [pySplit, pySplitAux]

/-- Witness for C9 at a token whose scope claim is `"read write"`. -/
theorem requires_scope_spec_witness :
    requires_scope (fun _ => Except.ok anyClaims) (some "Bearer tok")
        "read" =
      Except.ok ((pySplit (anyClaims.scope.getD "")).contains "read") ∧
    (anyClaims.scope = none →
      requires_scope (fun _ => Except.ok anyClaims) (some "Bearer tok")
        "read" = Except.ok false) :=
  requires_scope_spec (fun _ => Except.ok anyClaims) (some "Bearer tok")
    "read" "tok" anyClaims (by decide) rfl

/-- Counterexample for C9 as stated: on a request with no Authorization
header, `requires_scope` does not return a boolean at all — it raises the
`authorization_header_missing` AuthError, contradicting "never raises an
exception". -/
theorem requires_scope_raises_counterexample :
    requires_scope (fun _ => Except.ok anyClaims) none "read" =
      Except.error (PyErr.authError "authorization_header_missing"
        "Authorization header is expected" 401) := by
  decide

end MingleCore
